import Mathlib

/-!
Shallow embedding of the fairy-tale narration pipeline in `src/NLP.py` and
proofs about its specified behavior.

Modelling conventions:
* Audio is modelled at millisecond resolution: an `AudioSegment` buffer is a
  `List Int` of 16-bit PCM sample values, one sample per millisecond, so the
  pydub duration `len(seg)` (in ms) is the list length.  WAV encode/decode
  are modelled as the identity on decoded buffers.
* The pydub library itself is not vendored in this repository, so its
  operations (`*`, slicing, `fade_out`, gain, `overlay`, decoding) are
  modelled from the specification's description of their semantics; each such
  definition carries a doc comment starting with `Modelled from the spec:`.
* Python exceptions are modelled with `Except`; Python `//` is embedded with
  its `ZeroDivisionError` behavior made explicit.
-/

namespace NLP

/-! ### Theme resolver (src/NLP.py lines 32-49) -/

/-- The fixed keyword table `THEME_MUSIC_MAP` (src/NLP.py lines 32-40), in the
source's insertion order, which is the iteration order of a Python dict. -/
def THEME_MUSIC_MAP : List (String × String) :=
  [("space", "background_sound/space.wav"),
   ("fantastic", "background_sound/fantasy.wav"),
   ("medieval", "background_sound/medieval.wav"),
   ("horror", "background_sound/horror.wav"),
   ("sea", "background_sound/sea.wav"),
   ("sci-fi", "background_sound/sci-fi.wav"),
   ("forest", "background_sound/day_forest.wav")]

/-- The fixed default asset path `DEFAULT_BG_MUSIC` (src/NLP.py line 42). -/
def DEFAULT_BG_MUSIC : String := "background_sound/fairy_tail_slow.wav"

/-- Python `str.lower()`, embedded as lower-casing each character of the
string's character list. -/
def str_lower (s : String) : List Char := s.data.map Char.toLower

/-- Python's substring operator `key in s`, embedded as list-infix containment
of the character lists. -/
def py_in (key : String) (chars : List Char) : Bool := decide (key.data <:+: chars)

/-- Embedding of `pick_background_music` (src/NLP.py lines 44-49): lower-case
the theme, scan `THEME_MUSIC_MAP` in order, return the asset of the first
keyword occurring as a substring, else `DEFAULT_BG_MUSIC`. -/
def pick_background_music (theme : String) : String :=
  let theme_lower := str_lower theme
  match THEME_MUSIC_MAP.find? (fun kv => py_in kv.1 theme_lower) with
  | some kv => kv.2
  | none => DEFAULT_BG_MUSIC

/-! ### Audio data model -/

/-- Bytes fed to the audio decoder: either a well-formed WAV container that
decodes to a PCM buffer, or malformed data. -/
inductive AudioFile where
  | wav (frames : List Int)
  | malformed
deriving DecidableEq

/-- The failure modes of the mixing stage: pydub's decode failure, a missing
background asset file, and Python's `ZeroDivisionError`. -/
inductive MixError where
  | decodeError
  | assetNotFound
  | zeroDivisionError
deriving DecidableEq

/-- The on-disk assets visible to `AudioSegment.from_file(path)`. -/
def FileSystem : Type := String → Option AudioFile

/-- Modelled from the spec: pydub `AudioSegment.from_file` on an in-memory
buffer (the pydub sources are not part of this repository).  Decoding a
well-formed WAV yields its PCM buffer; malformed data raises a decode error. -/
def from_file_bytes : AudioFile → Except MixError (List Int)
  | .wav frames => .ok frames
  | .malformed => .error .decodeError

/-- Modelled from the spec: pydub `AudioSegment.from_file` on a path (the
pydub sources are not part of this repository).  A missing file raises the
asset-not-found error; otherwise the content is decoded as `from_file_bytes`. -/
def from_file (fs : FileSystem) (path : String) : Except MixError (List Int) :=
  match fs path with
  | none => .error .assetNotFound
  | some f => from_file_bytes f

/-- Python integer floor division `a // b`, which raises `ZeroDivisionError`
when the divisor is zero. -/
def py_floordiv (a b : Nat) : Except MixError Nat :=
  if b = 0 then .error .zeroDivisionError else .ok (a / b)

/-- Modelled from the spec: pydub `seg * n` (the pydub sources are not part of
this repository), which concatenates the buffer with itself `n` times. -/
def repeatSeg (s : List Int) (n : Nat) : List Int :=
  (List.replicate n s).flatten

/-- Per-sample multiplier of the linear fade-out: in a buffer of `n` samples
with fade window `f`, samples before `n - f` are unchanged and the final `f`
samples ramp linearly down to (near) silence. -/
def fadeSample (f n i : Nat) (v : Int) : Int :=
  if i < n - f then v else (v * ((n - i : Nat) : Int)) / (f : Int)

/-- Modelled from the spec: pydub `AudioSegment.fade_out(fade_ms)` (the pydub
sources are not part of this repository): a linear amplitude fade to silence
over the final `fade_ms` milliseconds, clamped to the whole buffer (without
error) when `fade_ms` exceeds the buffer's duration. -/
def fade_out (s : List Int) (fade_ms : Nat) : List Int :=
  List.zipWith (fun i v => fadeSample (min fade_ms s.length) s.length i v)
    (List.range s.length) s

/-- pydub `db_to_float`: the decibel-to-linear-amplitude conversion used by
gain application. -/
noncomputable def db_to_float (db : ℝ) : ℝ := 10 ^ (db / 20)

/-- Modelled from the spec: the per-sample action of pydub gain application
(`seg + db`, via `audioop.mul` at 16-bit width; the pydub sources are not part
of this repository): multiply by `db_to_float db`, floor, and saturate to the
signed 16-bit range. -/
noncomputable def gainSample (db : ℝ) (v : Int) : Int :=
  max (-32768) (min 32767 ⌊(v : ℝ) * db_to_float db⌋)

/-- Modelled from the spec: pydub `seg + music_volume_db` (gain adjustment;
the pydub sources are not part of this repository). -/
noncomputable def apply_gain (db : ℝ) (s : List Int) : List Int :=
  s.map (gainSample db)

/-- Per-sample action of pydub `overlay` (via `audioop.add` at 16-bit width):
the sum of the two samples, saturated to the signed 16-bit range instead of
wrapping around. -/
def addClip (a b : Int) : Int :=
  if 32767 < a + b then 32767 else if a + b < -32768 then -32768 else a + b

/-- Modelled from the spec: pydub `s1.overlay(s2, position=0)` (the pydub
sources are not part of this repository): the overlapping region is the
clipped sample-by-sample sum, the remainder of `s1` is unchanged, and the
output keeps `s1`'s duration. -/
def overlay (s1 s2 : List Int) : List Int :=
  List.zipWith addClip s1 s2 ++ s1.drop s2.length

/-- Embedding of `mix_audio_files` (src/NLP.py lines 162-179).  Decode the
narration bytes, load the background asset, loop the background
`narration_duration // len(background) + 1` times when it is shorter than the
narration, trim it to the narration duration, fade it out, apply the music
gain, overlay the narration, and return the mixed buffer. -/
noncomputable def mix_audio_files (fs : FileSystem) (narration_data : AudioFile)
    (background_path : String) (music_volume_db : ℝ) (fade_out_ms : Nat) :
    Except MixError (List Int) :=
  match from_file_bytes narration_data with
  | .error e => .error e
  | .ok narration =>
    let narration_duration := narration.length
    match from_file fs background_path with
    | .error e => .error e
    | .ok background =>
      match ((if background.length < narration_duration then
               match py_floordiv narration_duration background.length with
               | .error e => .error e
               | .ok times_to_repeat => .ok (repeatSeg background (times_to_repeat + 1))
             else .ok background) : Except MixError (List Int)) with
      | .error e => .error e
      | .ok background1 =>
        let background2 := fade_out (background1.take narration_duration) fade_out_ms
        let background3 := apply_gain music_volume_db background2
        .ok (overlay background3 narration)

/-! ### Helper lemmas about the mixing pipeline -/

theorem repeatSeg_length (s : List Int) (n : Nat) :
    (repeatSeg s n).length = n * s.length := by
  simp [repeatSeg, List.length_flatten, List.map_replicate, List.sum_replicate]

theorem fade_out_length (s : List Int) (fade_ms : Nat) :
    (fade_out s fade_ms).length = s.length := by
  simp [fade_out, List.length_zipWith, List.length_range]

theorem apply_gain_length (db : ℝ) (s : List Int) :
    (apply_gain db s).length = s.length := by
  simp [apply_gain, List.length_map]

theorem overlay_length (s1 s2 : List Int) :
    (overlay s1 s2).length = s1.length := by
  simp [overlay, List.length_zipWith, List.length_append, List.length_drop]
  omega

theorem overlay_eq_zipWith_of_length_eq {s1 s2 : List Int}
    (h : s1.length = s2.length) :
    overlay s1 s2 = List.zipWith addClip s1 s2 := by
  simp [overlay, List.drop_eq_nil_of_le (le_of_eq h)]

theorem nat_lt_div_succ_mul (a b : Nat) (hb : 0 < b) : a < (a / b + 1) * b := by
  calc a = b * (a / b) + a % b := (Nat.div_add_mod a b).symm
  _ < b * (a / b) + b := by have := Nat.mod_lt a hb; omega
  _ = (a / b + 1) * b := by ring

theorem from_file_eq_ok {fs : FileSystem} {path : String} {bg : List Int}
    (hfs : fs path = some (AudioFile.wav bg)) :
    from_file fs path = .ok bg := by
  simp [from_file, hfs, from_file_bytes]

/-- Unfolding of `mix_audio_files` in the looping case: the background exists,
is nonempty, and is strictly shorter than the narration. -/
theorem mix_spec_loop {fs : FileSystem} {path : String} {bg nseg : List Int}
    (db : ℝ) (f : Nat) (hfs : fs path = some (AudioFile.wav bg))
    (hlt : bg.length < nseg.length) (hpos : 0 < bg.length) :
    mix_audio_files fs (AudioFile.wav nseg) path db f =
      .ok (overlay
        (apply_gain db
          (fade_out ((repeatSeg bg (nseg.length / bg.length + 1)).take nseg.length) f))
        nseg) := by
  have hne : bg.length ≠ 0 := Nat.pos_iff_ne_zero.mp hpos
  simp [mix_audio_files, from_file_bytes, from_file_eq_ok hfs, hlt, py_floordiv, hne]

/-- Unfolding of `mix_audio_files` in the non-looping case: the background
exists and is at least as long as the narration. -/
theorem mix_spec_noloop {fs : FileSystem} {path : String} {bg nseg : List Int}
    (db : ℝ) (f : Nat) (hfs : fs path = some (AudioFile.wav bg))
    (hge : nseg.length ≤ bg.length) :
    mix_audio_files fs (AudioFile.wav nseg) path db f =
      .ok (overlay (apply_gain db (fade_out (bg.take nseg.length) f)) nseg) := by
  simp [mix_audio_files, from_file_bytes, from_file_eq_ok hfs, Nat.not_lt.mpr hge]

/-! ### Claim theorems -/

theorem find?_eq_get_of_first {α : Type} (p : α → Bool) (l : List α) (i : Nat)
    (hi : i < l.length) (hp : p (l.get ⟨i, hi⟩) = true)
    (hmin : ∀ j, (hj : j < l.length) → j < i → p (l.get ⟨j, hj⟩) = false) :
    l.find? p = some (l.get ⟨i, hi⟩) := by
  induction l generalizing i with
  | nil => exact absurd hi (by simp)
  | cons hd tl ih =>
    cases i with
    | zero =>
      simp only [List.get] at hp
      simp [List.find?_cons, hp]
    | succ k =>
      have h0 : p hd = false := by
        have := hmin 0 (by simp) (Nat.succ_pos k)
        simpa using this
      have hk : k < tl.length := by simpa using hi
      have htl := ih k hk (by simpa using hp) (fun j hj hji => by
        have := hmin (j + 1) (by simpa using Nat.succ_lt_succ hj)
          (Nat.succ_lt_succ hji)
        simpa using this)
      simp only [List.find?_cons, h0]
      simpa using htl

theorem pick_background_music_eq (theme : String) :
    pick_background_music theme =
      match THEME_MUSIC_MAP.find? (fun kv => py_in kv.1 (str_lower theme)) with
      | some kv => kv.2
      | none => DEFAULT_BG_MUSIC := rfl

/-- C3: for every input string, `pick_background_music` lower-cases the input
and scans `THEME_MUSIC_MAP` in its defined order: if entry `i` is the first
whose keyword occurs as a substring of the lowered input, its asset path is
returned; if no keyword matches (in particular for the empty string), the
fixed default asset path is returned.  Totality and purity hold because the
embedding is a total function. -/
theorem pick_background_music_first_match (theme : String) :
    (∀ i, (hi : i < THEME_MUSIC_MAP.length) →
      py_in (THEME_MUSIC_MAP.get ⟨i, hi⟩).1 (str_lower theme) = true →
      (∀ j, (hj : j < THEME_MUSIC_MAP.length) → j < i →
        py_in (THEME_MUSIC_MAP.get ⟨j, hj⟩).1 (str_lower theme) = false) →
      pick_background_music theme = (THEME_MUSIC_MAP.get ⟨i, hi⟩).2) ∧
    ((∀ kv ∈ THEME_MUSIC_MAP, py_in kv.1 (str_lower theme) = false) →
      pick_background_music theme = DEFAULT_BG_MUSIC) ∧
    pick_background_music "" = DEFAULT_BG_MUSIC := by
  refine ⟨?_, ?_, by decide⟩
  · intro i hi hp hmin
    rw [pick_background_music_eq,
      find?_eq_get_of_first (fun kv => py_in kv.1 (str_lower theme))
        THEME_MUSIC_MAP i hi hp hmin]
  · intro hall
    rw [pick_background_music_eq,
      List.find?_eq_none.mpr (fun kv hkv => by simp [hall kv hkv])]

/-- Witness for C3 at a concrete input: in "My Sci-Fi saga" the first matching
keyword (in table order) is "sci-fi", whose asset is returned, and an
unmatched theme falls back to the default. -/
theorem pick_background_music_first_match_witness :
    pick_background_music "My Sci-Fi saga" = "background_sound/sci-fi.wav" ∧
    pick_background_music "cooking" = DEFAULT_BG_MUSIC := by
  constructor
  · exact (pick_background_music_first_match "My Sci-Fi saga").1 5 (by decide)
      (by decide) (by decide)
  · exact (pick_background_music_first_match "cooking").2.1 (by decide)

/-- A concrete asset store used by the closed instantiations below: one
two-millisecond background track at the space theme's path. -/
def fsDemo : FileSystem := fun p =>
  if p = "background_sound/space.wav" then some (AudioFile.wav [1, -1]) else none

/-- C1: for every well-formed narration of duration `D` and well-formed
background asset of duration `B > 0` (covering `B < D`, `B == D` and `B > D`
at once), `mix_audio_files` succeeds and its output has duration exactly `D`;
the narration is never trimmed or padded: the output is the clipped
sample-by-sample sum of a `D`-length background buffer with the whole
narration buffer. -/
theorem mix_output_duration_eq_narration (fs : FileSystem) (path : String)
    (bg nseg : List Int) (db : ℝ) (f : Nat)
    (hfs : fs path = some (AudioFile.wav bg)) (hpos : 0 < bg.length) :
    ∃ bgmix : List Int, bgmix.length = nseg.length ∧
      mix_audio_files fs (AudioFile.wav nseg) path db f =
        .ok (List.zipWith addClip bgmix nseg) ∧
      (List.zipWith addClip bgmix nseg).length = nseg.length := by
  rcases Nat.lt_or_ge bg.length nseg.length with hlt | hge
  · refine ⟨apply_gain db (fade_out
      ((repeatSeg bg (nseg.length / bg.length + 1)).take nseg.length) f), ?_, ?_, ?_⟩
    · rw [apply_gain_length, fade_out_length, List.length_take, repeatSeg_length]
      exact min_eq_left (le_of_lt (nat_lt_div_succ_mul nseg.length bg.length hpos))
    · rw [mix_spec_loop db f hfs hlt hpos,
        overlay_eq_zipWith_of_length_eq (by
          rw [apply_gain_length, fade_out_length, List.length_take, repeatSeg_length]
          exact min_eq_left (le_of_lt (nat_lt_div_succ_mul nseg.length bg.length hpos)))]
    · rw [List.length_zipWith, apply_gain_length, fade_out_length, List.length_take,
        repeatSeg_length,
        min_eq_left (le_of_lt (nat_lt_div_succ_mul nseg.length bg.length hpos)), min_self]
  · refine ⟨apply_gain db (fade_out (bg.take nseg.length) f), ?_, ?_, ?_⟩
    · rw [apply_gain_length, fade_out_length, List.length_take]
      exact min_eq_left hge
    · rw [mix_spec_noloop db f hfs hge,
        overlay_eq_zipWith_of_length_eq (by
          rw [apply_gain_length, fade_out_length, List.length_take]
          exact min_eq_left hge)]
    · rw [List.length_zipWith, apply_gain_length, fade_out_length, List.length_take,
        min_eq_left hge, min_self]

/-- Witness for C1: a concrete 2 ms background with a 3 ms narration; the mix
succeeds and has the narration's duration. -/
theorem mix_output_duration_eq_narration_witness :
    fsDemo "background_sound/space.wav" = some (AudioFile.wav [1, -1]) ∧
    (0 : Nat) < ([(1 : Int), -1]).length ∧
    ∃ bgmix : List Int, bgmix.length = ([(5 : Int), 5, 5]).length ∧
      mix_audio_files fsDemo (AudioFile.wav [5, 5, 5]) "background_sound/space.wav"
          (-15) 3000 =
        .ok (List.zipWith addClip bgmix [5, 5, 5]) ∧
      (List.zipWith addClip bgmix [5, 5, 5]).length = ([(5 : Int), 5, 5]).length :=
  ⟨rfl, by decide,
    mix_output_duration_eq_narration fsDemo "background_sound/space.wav"
      [1, -1] [5, 5, 5] (-15) 3000 rfl (by decide)⟩

/-- C2: whenever the background's duration `B` is strictly less than the
narration's duration `D` (and `B > 0`), the background is concatenated with
itself exactly `D / B + 1` times before trimming, and this looped background
has duration at least `D`; whenever `B >= D`, no looping occurs and the
background is truncated to its first `D` milliseconds before fading, gain
and mixing. -/
theorem mix_looping_and_truncation (fs : FileSystem) (path : String)
    (bg nseg : List Int) (db : ℝ) (f : Nat)
    (hfs : fs path = some (AudioFile.wav bg)) :
    (bg.length < nseg.length → 0 < bg.length →
      mix_audio_files fs (AudioFile.wav nseg) path db f =
        .ok (overlay (apply_gain db (fade_out
          ((repeatSeg bg (nseg.length / bg.length + 1)).take nseg.length) f)) nseg) ∧
      nseg.length ≤ (repeatSeg bg (nseg.length / bg.length + 1)).length) ∧
    (nseg.length ≤ bg.length →
      mix_audio_files fs (AudioFile.wav nseg) path db f =
        .ok (overlay (apply_gain db (fade_out (bg.take nseg.length) f)) nseg)) := by
  constructor
  · intro hlt hpos
    refine ⟨mix_spec_loop db f hfs hlt hpos, ?_⟩
    rw [repeatSeg_length]
    exact le_of_lt (nat_lt_div_succ_mul nseg.length bg.length hpos)
  · intro hge
    exact mix_spec_noloop db f hfs hge

/-- Witness for C2: with a 2 ms background and a 3 ms narration the loop
count is `3 / 2 + 1 = 2` and the looped background covers the narration. -/
theorem mix_looping_and_truncation_witness :
    fsDemo "background_sound/space.wav" = some (AudioFile.wav [1, -1]) ∧
    mix_audio_files fsDemo (AudioFile.wav [5, 5, 5]) "background_sound/space.wav"
        (-15) 3000 =
      .ok (overlay (apply_gain (-15) (fade_out ((repeatSeg [1, -1] 2).take 3) 3000))
        [5, 5, 5]) ∧
    ([(5 : Int), 5, 5]).length ≤ (repeatSeg [1, -1] 2).length := by
  have h := (mix_looping_and_truncation fsDemo "background_sound/space.wav"
    [1, -1] [5, 5, 5] (-15) 3000 rfl).1 (by decide) (by decide)
  exact ⟨rfl, h.1, h.2⟩

/-- C4: the fade-out step never changes the buffer's duration and never
fails; when `fade_out_ms` exceeds the buffer duration `D` the fade is clamped
to span the entire buffer, and when `fade_out_ms <= D` the fade is applied
over exactly the final `fade_out_ms` milliseconds: samples before the fade
window are unchanged and samples in the window get the fade ramp. -/
theorem fade_out_clamp_and_window (s : List Int) (fade_ms : Nat) :
    (fade_out s fade_ms).length = s.length ∧
    (s.length < fade_ms → fade_out s fade_ms = fade_out s s.length) ∧
    (fade_ms ≤ s.length →
      (∀ i, i < s.length - fade_ms → (fade_out s fade_ms).getD i 0 = s.getD i 0) ∧
      (∀ i, s.length - fade_ms ≤ i → i < s.length →
        (fade_out s fade_ms).getD i 0 = fadeSample fade_ms s.length i (s.getD i 0))) := by
  refine ⟨fade_out_length s fade_ms, ?_, ?_⟩
  · intro h
    simp only [fade_out, min_eq_right (le_of_lt h), min_self]
  · intro hfm
    constructor
    · intro i hi
      have hi1 : i < (fade_out s fade_ms).length := by rw [fade_out_length]; omega
      rw [List.getD_eq_getElem _ _ hi1, List.getD_eq_getElem _ _ (by omega : i < s.length)]
      simp only [fade_out, List.getElem_zipWith, List.getElem_range]
      unfold fadeSample
      simp only [min_eq_left hfm]
      rw [if_pos hi]
    · intro i hlo hhi
      have hi1 : i < (fade_out s fade_ms).length := by rw [fade_out_length]; omega
      rw [List.getD_eq_getElem _ _ hi1, List.getD_eq_getElem _ _ hhi]
      simp only [fade_out, List.getElem_zipWith, List.getElem_range]
      simp only [min_eq_left hfm]

/-- Witness for C4: a concrete 4 ms buffer with a 2 ms fade keeps its length
and leaves the sample before the fade window unchanged. -/
theorem fade_out_clamp_and_window_witness :
    (fade_out [100, 100, 100, 100] 2).length = ([(100 : Int), 100, 100, 100]).length ∧
    (fade_out [100, 100, 100, 100] 2).getD 0 0 =
      ([(100 : Int), 100, 100, 100]).getD 0 0 := by
  have h := fade_out_clamp_and_window [100, 100, 100, 100] 2
  exact ⟨h.1, (h.2.2 (by decide)).1 0 (by decide)⟩

/-- An asset store whose background track at the sea theme's path is a
well-formed WAV that decodes to a zero-duration buffer. -/
def fsZero : FileSystem := fun p =>
  if p = "background_sound/sea.wav" then some (AudioFile.wav []) else none

/-- C5 counterexample: with a well-formed narration of positive duration and
an existing, well-formed background asset of zero duration, the mix fails
with `ZeroDivisionError`, which is neither `DecodeError` nor
`AssetNotFoundError` — so those are not the only error conditions. -/
theorem mix_error_conditions_counterexample :
    mix_audio_files fsZero (AudioFile.wav [0, 0]) "background_sound/sea.wav"
      (-15) 3000 = .error .zeroDivisionError ∧
    MixError.zeroDivisionError ≠ MixError.decodeError ∧
    MixError.zeroDivisionError ≠ MixError.assetNotFound :=
  ⟨rfl, by decide, by decide⟩

/-- C5 (amended): `mix_audio_files` fails with `DecodeError` when the
narration bytes are malformed; with a well-formed narration it fails with
`AssetNotFoundError` when the background path does not exist and with
`DecodeError` when the background file is malformed; with both inputs
well-formed it fails with `ZeroDivisionError` when the background decodes to
a zero-duration buffer while the narration has positive duration, and
succeeds otherwise — these (and nothing else) are the error conditions, and
no retry is performed (the transform is a pure function of its inputs). -/
theorem mix_error_conditions_amended (fs : FileSystem) (nd : AudioFile)
    (p : String) (db : ℝ) (f : Nat) :
    (nd = AudioFile.malformed →
      mix_audio_files fs nd p db f = .error .decodeError) ∧
    (∀ nseg, nd = AudioFile.wav nseg →
      (fs p = none → mix_audio_files fs nd p db f = .error .assetNotFound) ∧
      (fs p = some AudioFile.malformed →
        mix_audio_files fs nd p db f = .error .decodeError) ∧
      (∀ bg, fs p = some (AudioFile.wav bg) →
        (bg.length = 0 → 0 < nseg.length →
          mix_audio_files fs nd p db f = .error .zeroDivisionError) ∧
        (0 < bg.length ∨ nseg.length = 0 →
          ∃ out, mix_audio_files fs nd p db f = .ok out))) := by
  refine ⟨?_, ?_⟩
  · intro h; subst h; rfl
  · intro nseg h; subst h
    refine ⟨?_, ?_, ?_⟩
    · intro hfs; simp [mix_audio_files, from_file_bytes, from_file, hfs]
    · intro hfs; simp [mix_audio_files, from_file_bytes, from_file, hfs]
    · intro bg hfs
      constructor
      · intro hz hn
        have hlt : bg.length < nseg.length := by omega
        simp [mix_audio_files, from_file_bytes, from_file_eq_ok hfs, hlt,
          py_floordiv, hz, hn]
      · intro hok
        rcases Nat.lt_or_ge bg.length nseg.length with hlt | hge
        · have hpos : 0 < bg.length := by
            rcases hok with h1 | h1
            · exact h1
            · omega
          exact ⟨_, mix_spec_loop db f hfs hlt hpos⟩
        · exact ⟨_, mix_spec_noloop db f hfs hge⟩

/-- Witness for the amended C5: a malformed narration yields `DecodeError`
and a missing background asset yields `AssetNotFoundError`. -/
theorem mix_error_conditions_amended_witness :
    mix_audio_files fsDemo AudioFile.malformed "background_sound/space.wav"
      (-15) 3000 = .error .decodeError ∧
    mix_audio_files fsDemo (AudioFile.wav [0]) "missing.wav"
      (-15) 3000 = .error .assetNotFound := by
  have h1 := mix_error_conditions_amended fsDemo AudioFile.malformed
    "background_sound/space.wav" (-15) 3000
  have h2 := mix_error_conditions_amended fsDemo (AudioFile.wav [0])
    "missing.wav" (-15) 3000
  exact ⟨h1.1 rfl, (h2.2 [0] rfl).1 rfl⟩

/-- C6: `mix_audio_files` is deterministic — two invocations on equal inputs
(asset store, narration bytes, background path, music volume and fade
parameters) produce identical outputs; the embedding is a pure function with
no hidden randomness. -/
theorem mix_audio_files_deterministic (fs1 fs2 : FileSystem) (n1 n2 : AudioFile)
    (p1 p2 : String) (db1 db2 : ℝ) (f1 f2 : Nat)
    (hfs : fs1 = fs2) (hn : n1 = n2) (hp : p1 = p2) (hdb : db1 = db2)
    (hf : f1 = f2) :
    mix_audio_files fs1 n1 p1 db1 f1 = mix_audio_files fs2 n2 p2 db2 f2 := by
  subst hfs; subst hn; subst hp; subst hdb; subst hf; rfl

/-- Witness for C6 at a concrete input. -/
theorem mix_audio_files_deterministic_witness :
    mix_audio_files fsDemo (AudioFile.wav [5, 5, 5]) "background_sound/space.wav"
        (-15) 3000 =
      mix_audio_files fsDemo (AudioFile.wav [5, 5, 5]) "background_sound/space.wav"
        (-15) 3000 :=
  mix_audio_files_deterministic fsDemo fsDemo (AudioFile.wav [5, 5, 5])
    (AudioFile.wav [5, 5, 5]) "background_sound/space.wav"
    "background_sound/space.wav" (-15) (-15) 3000 3000 rfl rfl rfl rfl rfl

theorem clamp16_bounds (x : Int) :
    -32768 ≤ max (-32768) (min 32767 x) ∧ max (-32768) (min 32767 x) ≤ 32767 :=
  ⟨le_max_left _ _, max_le (by norm_num) (min_le_left _ _)⟩

theorem addClip_eq_clamp (a b : Int) :
    addClip a b = max (-32768) (min 32767 (a + b)) := by
  unfold addClip
  rw [max_def, min_def]
  split_ifs <;> omega

theorem zipWith_addClip_bounds (l1 l2 : List Int) :
    ∀ v ∈ List.zipWith addClip l1 l2, -32768 ≤ v ∧ v ≤ 32767 := by
  induction l1 generalizing l2 with
  | nil => simp
  | cons a t ih =>
    cases l2 with
    | nil => simp
    | cons b t2 =>
      intro v hv
      rcases List.mem_cons.mp hv with h | h
      · subst h
        rw [addClip_eq_clamp]
        exact clamp16_bounds _
      · exact ih t2 v h

theorem overlay_apply_gain_bounds (db : ℝ) (bg narr : List Int) :
    ∀ v ∈ overlay (apply_gain db bg) narr, -32768 ≤ v ∧ v ≤ 32767 := by
  intro v hv
  unfold overlay at hv
  rcases List.mem_append.mp hv with h | h
  · exact zipWith_addClip_bounds _ _ v h
  · have h2 : v ∈ apply_gain db bg := List.mem_of_mem_drop h
    unfold apply_gain at h2
    rcases List.mem_map.mp h2 with ⟨u, _, rfl⟩
    unfold gainSample
    exact clamp16_bounds _

/-- C7: the decibel gain applied to the background converts to the linear
amplitude multiplier `10 ^ (db / 20)`, and the sample-by-sample summation of
the gain-adjusted background with the narration saturates each output sample
to the signed 16-bit range `[-32768, 32767]` instead of wrapping on
overflow — every sample of the overlay stage's output is within range. -/
theorem gain_formula_and_overlay_saturation (db : ℝ) (a b : Int)
    (bg narr : List Int) (i : Nat) :
    db_to_float db = 10 ^ (db / 20) ∧
    addClip a b = max (-32768) (min 32767 (a + b)) ∧
    (-32768 ≤ (overlay (apply_gain db bg) narr).getD i 0 ∧
      (overlay (apply_gain db bg) narr).getD i 0 ≤ 32767) := by
  refine ⟨rfl, addClip_eq_clamp a b, ?_⟩
  by_cases hi : i < (overlay (apply_gain db bg) narr).length
  · rw [List.getD_eq_getElem _ _ hi]
    exact overlay_apply_gain_bounds db bg narr _ (List.getElem_mem hi)
  · rw [List.getD_eq_default _ _ (Nat.le_of_not_lt hi)]
    norm_num

/-! ### Story generation (src/NLP.py lines 54-78) -/

/-- The session feedback flag `st.session_state["feedback"]`: `None` until a
vote, then `"like"` or `"dislike"`. -/
inductive Feedback where
  | none
  | like
  | dislike
deriving DecidableEq

/-- The feedback hint chosen at src/NLP.py lines 60-69: a maintain-style note
after a like, a change-style note after a dislike, the empty string
otherwise. -/
def feedback_note : Feedback → String
  | .like =>
    "The user liked your previous story. Maintain or enhance that appealing style/tone.\n"
  | .dislike =>
    "The user disliked your previous story. Try a different approach or style.\n"
  | .none => ""

/-- The fixed system-message template of src/NLP.py lines 71-76, before the
feedback note is appended. -/
def base_system_message (language_code : String) : String :=
  "You are a creative AI specialized in crafting original fairy tales. " ++
  "Write a complete story with a clear beginning, middle, and end. " ++
  "It should be relatively small, around 1000 words. " ++
  "Use rich detail, do not end abruptly, and conclude with a final resolution. " ++
  "Write the story in " ++ language_code ++ " language.\n"

/-- Embedding of the prompt construction in `generate_fairy_tale`
(src/NLP.py lines 54-78): the system-instruction string handed to the story
generator, paired with the session feedback state after the call.  The
function body reads `st.session_state["feedback"]` and never assigns to it,
so the state component is returned unchanged. -/
def generate_fairy_tale_system_message (feedback : Feedback)
    (language_code : String) : String × Feedback :=
  (base_system_message language_code ++ feedback_note feedback, feedback)

/-- C8: for every generation request the system-instruction string is the
fixed template plus exactly the feedback hint selected by the feedback
state — the maintain-style note for `like`, the change-style note for
`dislike`, and no extra note for `none` — and the feedback state is read but
not modified by generation. -/
theorem generate_fairy_tale_system_message_spec (feedback : Feedback)
    (language_code : String) :
    (generate_fairy_tale_system_message feedback language_code).1 =
      base_system_message language_code ++ feedback_note feedback ∧
    feedback_note .like =
      "The user liked your previous story. Maintain or enhance that appealing style/tone.\n" ∧
    feedback_note .dislike =
      "The user disliked your previous story. Try a different approach or style.\n" ∧
    feedback_note .none = "" ∧
    (generate_fairy_tale_system_message feedback language_code).2 = feedback :=
  ⟨rfl, rfl, rfl, rfl, rfl⟩

/-! ### Speech synthesis (src/NLP.py lines 111-157) -/

/-- The voice reference handed to `text_to_speech_coqui`: either an uploaded
in-memory buffer (`BytesIO`) or a preset file path such as "Islam.wav". -/
inductive VoiceRef where
  | uploadedBuffer (content : AudioFile)
  | presetPath (p : String)

/-- Outcome of one `text_to_speech_coqui` run: the returned narration bytes
(`none` models the Python function returning `None` after an error), and the
number of normalization temp files still existing on disk after the call. -/
structure TTSRun where
  output : Option (List Int)
  temp_files_left : Nat

/-- Embedding of `text_to_speech_coqui` (src/NLP.py lines 111-157).  The
synthesis engine is external, so its outcome is the parameter
`synth_result` (`some bytes` on success, `none` when `tts_to_file` raises and
the handler returns `None`).  With an uploaded buffer the function first
decodes it (returning `None` on decode failure, before any temp file exists)
and then re-exports it into a file created by
`tempfile.NamedTemporaryFile(suffix=".wav", delete=False)`; `delete=False`
keeps the file after the `with` block, and no code path ever removes it, so
on both the success and the synthesis-failure paths that temp file remains on
disk.  With a preset path no temp file is created. -/
def text_to_speech_coqui (synth_result : Option (List Int)) (voice : VoiceRef) :
    TTSRun :=
  match voice with
  | .presetPath _ => { output := synth_result, temp_files_left := 0 }
  | .uploadedBuffer .malformed => { output := Option.none, temp_files_left := 0 }
  | .uploadedBuffer (.wav _) => { output := synth_result, temp_files_left := 1 }

/-- C9: the code violates the claim.  On the success path with an uploaded,
well-formed voice sample, `text_to_speech_coqui` returns the synthesized
narration but leaves its normalization temp file on disk (one remaining temp
file, not zero); the same leak occurs on the synthesis-failure path.  Only
the decode-failure path creates no temp file. -/
theorem text_to_speech_coqui_temp_file_leak :
    (text_to_speech_coqui (some [0]) (.uploadedBuffer (.wav [2]))).output =
      some [0] ∧
    (text_to_speech_coqui (some [0]) (.uploadedBuffer (.wav [2]))).temp_files_left
      = 1 ∧
    (text_to_speech_coqui Option.none (.uploadedBuffer (.wav [2]))).temp_files_left
      = 1 ∧
    (text_to_speech_coqui Option.none (.uploadedBuffer .malformed)).temp_files_left
      = 0 :=
  ⟨rfl, rfl, rfl, rfl⟩

/-- C10: `mix_audio_files` is not total on zero-length backgrounds — with a
well-formed background asset decoding to a zero-duration buffer and a
narration of positive duration, the looping step's floor division by the
background's length fails with the division-by-zero error, which is none of
the documented error conditions. -/
theorem mix_zero_duration_background_zero_division :
    fsZero "background_sound/sea.wav" = some (AudioFile.wav []) ∧
    mix_audio_files fsZero (AudioFile.wav [0]) "background_sound/sea.wav"
      (-15) 3000 = .error .zeroDivisionError ∧
    MixError.zeroDivisionError ≠ MixError.decodeError ∧
    MixError.zeroDivisionError ≠ MixError.assetNotFound :=
  ⟨rfl, rfl, by decide, by decide⟩

end NLP
